import Mathlib

/-!
Shallow embedding of the `sdf_surfer` repository (src/src/motion.rs and
src/src/main.rs) and verification of its specification claims.

Modelling conventions:
* `f32` scalars are embedded as `ℚ`. The constants `SENSITIVITY_X = 0.01`,
  `SENSITIVITY_Y = 0.02` and the per-frame time increment `0.01` become the
  exact rationals `1/100` and `1/50`; `std::f32::consts::FRAC_PI_2` becomes
  the exact rational value of the `f32` bit pattern `0x3FC90FDB`.
* The hardware trigonometric functions are abstracted as parameters
  `(cos sin : ℚ → ℚ)`; theorems that need `cos 0 = 1` or `sin 0 = 0` take
  them as hypotheses.
* Rust `Result` becomes `Except String`; a Rust panic (such as one
  raised by `.expect`) becomes an `Except.error` value carrying the
  panic message.
* External collaborators (the gilrs gamepad, the wiiboard driver, the file
  system, the shaderc compiler, the klystron engine) are passed in as
  explicit data: a poll result, a map `Path → Option String` of existing
  regular files to their contents, a `compile` function, and an engine
  state with an oracle saying which `remove_material` calls fail.
-/

namespace SdfSurfer

/-- Constant `SENSITIVITY_X: f32 = 0.01` from src/src/motion.rs. -/
def SENSITIVITY_X : ℚ := 1 / 100

/-- Constant `SENSITIVITY_Y: f32 = 0.02` from src/src/motion.rs. -/
def SENSITIVITY_Y : ℚ := 1 / 50

/-- Exact rational value of the `f32` constant `std::f32::consts::FRAC_PI_2`
(bit pattern `0x3FC90FDB`), the `f32` nearest to π/2. -/
def FRAC_PI_2 : ℚ := 13176795 / 8388608

/-- Model of `nalgebra::Vector3<f32>`. -/
structure Vec3 where
  x : ℚ
  y : ℚ
  z : ℚ
deriving DecidableEq

/-- Model of `Vector3::zeros()`. -/
def Vec3.zeros : Vec3 := ⟨0, 0, 0⟩

/-- Model of `nalgebra::Matrix4<f32>`, row-major entries `mRC`. -/
structure Mat4 where
  m00 : ℚ
  m01 : ℚ
  m02 : ℚ
  m03 : ℚ
  m10 : ℚ
  m11 : ℚ
  m12 : ℚ
  m13 : ℚ
  m20 : ℚ
  m21 : ℚ
  m22 : ℚ
  m23 : ℚ
  m30 : ℚ
  m31 : ℚ
  m32 : ℚ
  m33 : ℚ
deriving DecidableEq

/-- Matrix product `A * B` of two 4×4 matrices. -/
def Mat4.mul (A B : Mat4) : Mat4 where
  m00 := A.m00 * B.m00 + A.m01 * B.m10 + A.m02 * B.m20 + A.m03 * B.m30
  m01 := A.m00 * B.m01 + A.m01 * B.m11 + A.m02 * B.m21 + A.m03 * B.m31
  m02 := A.m00 * B.m02 + A.m01 * B.m12 + A.m02 * B.m22 + A.m03 * B.m32
  m03 := A.m00 * B.m03 + A.m01 * B.m13 + A.m02 * B.m23 + A.m03 * B.m33
  m10 := A.m10 * B.m00 + A.m11 * B.m10 + A.m12 * B.m20 + A.m13 * B.m30
  m11 := A.m10 * B.m01 + A.m11 * B.m11 + A.m12 * B.m21 + A.m13 * B.m31
  m12 := A.m10 * B.m02 + A.m11 * B.m12 + A.m12 * B.m22 + A.m13 * B.m32
  m13 := A.m10 * B.m03 + A.m11 * B.m13 + A.m12 * B.m23 + A.m13 * B.m33
  m20 := A.m20 * B.m00 + A.m21 * B.m10 + A.m22 * B.m20 + A.m23 * B.m30
  m21 := A.m20 * B.m01 + A.m21 * B.m11 + A.m22 * B.m21 + A.m23 * B.m31
  m22 := A.m20 * B.m02 + A.m21 * B.m12 + A.m22 * B.m22 + A.m23 * B.m32
  m23 := A.m20 * B.m03 + A.m21 * B.m13 + A.m22 * B.m23 + A.m23 * B.m33
  m30 := A.m30 * B.m00 + A.m31 * B.m10 + A.m32 * B.m20 + A.m33 * B.m30
  m31 := A.m30 * B.m01 + A.m31 * B.m11 + A.m32 * B.m21 + A.m33 * B.m31
  m32 := A.m30 * B.m02 + A.m31 * B.m12 + A.m32 * B.m22 + A.m33 * B.m32
  m33 := A.m30 * B.m03 + A.m31 * B.m13 + A.m32 * B.m23 + A.m33 * B.m33

/-- The 4×4 identity matrix (`Matrix4::identity()`). -/
def Mat4.identity : Mat4 where
  m00 := 1
  m01 := 0
  m02 := 0
  m03 := 0
  m10 := 0
  m11 := 1
  m12 := 0
  m13 := 0
  m20 := 0
  m21 := 0
  m22 := 1
  m23 := 0
  m30 := 0
  m31 := 0
  m32 := 0
  m33 := 1

/-- Model of `Matrix4::new_translation(&t)`: identity with `t` in the last
column. -/
def Mat4.new_translation (t : Vec3) : Mat4 :=
  { Mat4.identity with m03 := t.x, m13 := t.y, m23 := t.z }

/-- Homogeneous rotation about the x axis with given cosine and sine. -/
def Mat4.rot_x (c s : ℚ) : Mat4 :=
  { Mat4.identity with m11 := c, m12 := -s, m21 := s, m22 := c }

/-- Homogeneous rotation about the y (vertical) axis with given cosine and
sine. -/
def Mat4.rot_y (c s : ℚ) : Mat4 :=
  { Mat4.identity with m00 := c, m02 := s, m20 := -s, m22 := c }

/-- Homogeneous rotation about the z axis with given cosine and sine. -/
def Mat4.rot_z (c s : ℚ) : Mat4 :=
  { Mat4.identity with m00 := c, m01 := -s, m10 := s, m11 := c }

/-- Model of `Matrix4::from_euler_angles(roll, pitch, yaw)`: the nalgebra
convention applies the primitive rotations in order roll (x), pitch (y),
yaw (z), i.e. the matrix is `Rz(yaw) * Ry(pitch) * Rx(roll)`, with the
trigonometric functions passed in abstractly. -/
def Mat4.from_euler_angles (cos sin : ℚ → ℚ) (roll pitch yaw : ℚ) : Mat4 :=
  (Mat4.rot_z (cos yaw) (sin yaw)).mul
    ((Mat4.rot_y (cos pitch) (sin pitch)).mul (Mat4.rot_x (cos roll) (sin roll)))

/-- The two concrete `TwoAxis` implementations selected in
`PlayerMovement::new` by the `balance` flag. -/
inductive InputDevice where
  | wiiBoardRealtime
  | gamepadAxes
deriving DecidableEq

/-- Model of `motion::PlayerMovement`: position, yaw, speed and the boxed
input device. -/
structure PlayerMovement where
  position : Vec3
  yaw : ℚ
  speed : ℚ
  input_device : InputDevice
deriving DecidableEq

/-- Model of `PlayerMovement::new(balance)`. The fallible construction of
`GamepadAxes::new()` (gilrs init failure or no gamepad found) is passed in
as `gamepadInit`. -/
def PlayerMovement.new (balance : Bool) (gamepadInit : Except String Unit) :
    Except String PlayerMovement :=
  match balance with
  | true =>
    Except.ok
      { position := Vec3.zeros, yaw := FRAC_PI_2, speed := 0,
        input_device := InputDevice.wiiBoardRealtime }
  | false =>
    match gamepadInit with
    | Except.error e => Except.error e
    | Except.ok _ =>
      Except.ok
        { position := Vec3.zeros, yaw := FRAC_PI_2, speed := 0,
          input_device := InputDevice.gamepadAxes }

/-- Model of `PlayerMovement::player_transform`. The device poll result is
passed in as `pollResult`; the `.expect("Input error")` panic on a poll
error is modelled as an `Except.error` carrying the panic message. -/
def PlayerMovement.player_transform (cos sin : ℚ → ℚ) (pm : PlayerMovement)
    (pollResult : Except String (ℚ × ℚ)) : Except String (PlayerMovement × Mat4) :=
  match pollResult with
  | Except.error e => Except.error ("Input error: " ++ e)
  | Except.ok (x, y) =>
    let yaw := pm.yaw + x * SENSITIVITY_X
    let speed := pm.speed + y * SENSITIVITY_Y
    let pm' := { pm with yaw := yaw, speed := speed }
    Except.ok (pm',
      (Mat4.new_translation pm'.position).mul
        (Mat4.from_euler_angles cos sin 0 pm'.yaw 0))

/-- Model of `wiiboard::WiiBoardData`: the four corner pressure sensors. -/
structure WiiBoardData where
  top_left : ℚ
  top_right : ℚ
  bottom_left : ℚ
  bottom_right : ℚ
deriving DecidableEq

/-- Model of `<WiiBoardRealtime as TwoAxis>::get_axes`. The driver call
`self.poll()` returns `Result<Option<WiiBoardData>>`, passed in as
`pollResult`; the `?` operator propagates its error. -/
def wiiBoard_get_axes (pollResult : Except String (Option WiiBoardData)) :
    Except String (ℚ × ℚ) :=
  match pollResult with
  | Except.error e => Except.error e
  | Except.ok (some data) =>
    let total := data.top_left + data.top_right + data.bottom_left + data.bottom_right
    if 0 < total then
      Except.ok
        (((data.top_right + data.bottom_right) / total) * 2 - 1,
         ((data.top_left + data.top_right) / total) * 2 - 1)
    else
      Except.ok (0, 0)
  | Except.ok none => Except.ok (0, 0)

/-- Model of `<GamepadAxes as TwoAxis>::get_axes`. The raw axis readings
`axis_data(Axis::LeftStickX/Y)` are passed in as options; a missing
reading contributes `0.0` via `unwrap_or(0.0)`, and the function returns
`Ok((-x, y))`. -/
def gamepad_get_axes (axisDataX axisDataY : Option ℚ) : Except String (ℚ × ℚ) :=
  let x := axisDataX.getD 0
  let y := axisDataY.getD 0
  Except.ok (-x, y)

/-- Model of a `std::path::PathBuf`: a display name plus the value of
`path.extension()`. -/
structure Path where
  name : String
  ext : Option String
deriving DecidableEq

/-- Model of the relevant `notify::DebouncedEvent` variants: `Create` and
`Write` are matched by `next_frame`; `Remove` and every other variant
(`NoticeWrite`, `NoticeRemove`, `Chmod`, `Rename`, `Rescan`, `Error`) fall
into the wildcard arm, the latter collapsed into `Other`. -/
inductive DebouncedEvent where
  | Create (p : Path)
  | Write (p : Path)
  | Remove (p : Path)
  | Other
deriving DecidableEq

/-- Model of the klystron engine collaborator state: a fresh-handle counter
for `add_material`, the live and released material handles, the scalar
values received by `update_time_value`, and an oracle saying which
`remove_material` calls fail engine-side. -/
structure Engine where
  nextMaterial : Nat
  materials : List Nat
  removedMaterials : List Nat
  timeLog : List ℚ
  removeFails : Nat → Bool

/-- Model of `engine.add_material(..)`: allocates a fresh material handle. -/
def Engine.add_material (e : Engine) : Engine × Nat :=
  ({ e with nextMaterial := e.nextMaterial + 1,
            materials := e.materials ++ [e.nextMaterial] },
   e.nextMaterial)

/-- Model of `engine.remove_material(m)`: fails according to the engine's
oracle, otherwise releases the handle. -/
def Engine.remove_material (e : Engine) (m : Nat) : Except String Engine :=
  if e.removeFails m then
    Except.error "remove_material failed"
  else
    Except.ok { e with materials := e.materials.erase m,
                       removedMaterials := e.removedMaterials ++ [m] }

/-- Model of `engine.update_time_value(t)`: records the forwarded scalar. -/
def Engine.update_time_value (e : Engine) (t : ℚ) : Except String Engine :=
  Except.ok { e with timeLog := e.timeLog ++ [t] }

/-- Model of `load_shader(path, engine, compiler)` from src/src/main.rs:
`fs::read_to_string` succeeds exactly on paths in the domain of `fs`
(the existing regular files), `compile` models
`compiler.compile_into_spirv(.., ShaderKind::Fragment, .., "main", None)`
returning either SPIR-V bytes or the compiler diagnostic, and on success
the engine allocates a material from the fixed fullscreen vertex shader
and the new fragment SPIR-V. -/
def load_shader (fs : Path → Option String) (compile : String → Except String String)
    (p : Path) (engine : Engine) : Except String (Engine × Nat) :=
  match fs p with
  | none => Except.error ("No such file: " ++ p.name)
  | some text =>
    match compile text with
    | Except.error diag => Except.error diag
    | Except.ok _spirv => Except.ok engine.add_material

/-- Model of `klystron::Object`: mesh handle, material handle, transform. -/
structure Object where
  mesh : Nat
  material : Nat
  transform : Mat4
deriving DecidableEq

/-- Model of the `MyApp` state: the motion integrator, the fullscreen quad
object, the animation time, and the lines printed with `println!`. -/
structure MyApp where
  movement : PlayerMovement
  fullscreen : Object
  time : ℚ
  log : List String
deriving DecidableEq

/-- Model of `klystron::FramePacket`. -/
structure FramePacket where
  objects : List Object
  base_transform : Mat4
deriving DecidableEq

/-- The shader-reload block at the top of `MyApp::next_frame`: the
`try_recv` result is passed in as `event` (`none` models `Err(TryRecvError)`,
i.e. no pending event). A `Create` or `Write` event for an existing regular
file with extension `"frag"` triggers `load_shader`; on success the active
material is swapped, the old handle released (`?` propagates a release
failure), and a `Loaded` line printed; on failure an `ERROR:` line is
printed and the material left unchanged. Every other event does nothing. -/
def reload_step (fs : Path → Option String) (compile : String → Except String String)
    (event : Option DebouncedEvent) (app : MyApp) (engine : Engine) :
    Except String (MyApp × Engine) :=
  match event with
  | some (DebouncedEvent.Create p) | some (DebouncedEvent.Write p) =>
    if (fs p).isSome ∧ p.ext = some "frag" then
      match load_shader fs compile p engine with
      | Except.ok (engine', material) =>
        let old := app.fullscreen.material
        let app' := { app with fullscreen := { app.fullscreen with material := material } }
        match engine'.remove_material old with
        | Except.error e => Except.error e
        | Except.ok engine'' =>
          Except.ok ({ app' with log := app'.log ++ ["Loaded " ++ p.name] }, engine'')
      | Except.error e =>
        Except.ok ({ app with log := app.log ++ ["ERROR: " ++ e] }, engine)
    else
      Except.ok (app, engine)
  | _ => Except.ok (app, engine)

/-- Model of `MyApp::next_frame`: process at most one pending watch event,
forward the current time value to the engine and then advance it by `0.01`,
obtain the transform from the motion integrator (its device poll passed in
as `pollResult`), and emit the frame packet holding exactly the fullscreen
object. -/
def next_frame (fs : Path → Option String) (compile : String → Except String String)
    (cos sin : ℚ → ℚ) (event : Option DebouncedEvent)
    (pollResult : Except String (ℚ × ℚ)) (app : MyApp) (engine : Engine) :
    Except String (MyApp × Engine × FramePacket) :=
  match reload_step fs compile event app engine with
  | Except.error e => Except.error e
  | Except.ok (app1, engine1) =>
    match engine1.update_time_value app1.time with
    | Except.error e => Except.error e
    | Except.ok engine2 =>
      let app2 := { app1 with time := app1.time + 1 / 100 }
      match PlayerMovement.player_transform cos sin app2.movement pollResult with
      | Except.error e => Except.error e
      | Except.ok (movement', transform) =>
        let app3 := { app2 with movement := movement' }
        Except.ok (app3, engine2,
          { objects := [app3.fullscreen], base_transform := transform })

/-- Iterated frame loop: run `next_frame` once per element of `inputs`,
each element providing that tick's dequeued watch event and device poll
result, stopping at the first propagated error. -/
def run_frames (fs : Path → Option String) (compile : String → Except String String)
    (cos sin : ℚ → ℚ) :
    List (Option DebouncedEvent × Except String (ℚ × ℚ)) → MyApp → Engine →
    Except String (MyApp × Engine)
  | [], app, engine => Except.ok (app, engine)
  | (ev, pollResult) :: rest, app, engine =>
    match next_frame fs compile cos sin ev pollResult app engine with
    | Except.error e => Except.error e
    | Except.ok (app', engine', _) => run_frames fs compile cos sin rest app' engine'

/-- Iterated motion ticks on successful polls only: fold
`player_transform` over a list of polled signals, keeping the updated
state. -/
def run_ticks (cos sin : ℚ → ℚ) : List (ℚ × ℚ) → PlayerMovement → PlayerMovement
  | [], pm => pm
  | (x, y) :: rest, pm =>
    match PlayerMovement.player_transform cos sin pm (Except.ok (x, y)) with
    | Except.ok (pm', _) => run_ticks cos sin rest pm'
    | Except.error _ => pm

/-- Constant trigonometric stand-in with value 1 everywhere. -/
def cOne : ℚ → ℚ := fun _ => 1

/-- Constant trigonometric stand-in with value 0 everywhere. -/
def sZero : ℚ → ℚ := fun _ => 0

/-- A path with the hard-coded watched extension. -/
def fragPath : Path := { name := "shader.frag", ext := some "frag" }

/-- A path whose extension is "glsl", as in a `--shader-path shader.glsl`
configuration. -/
def glslPath : Path := { name := "shader.glsl", ext := some "glsl" }

/-- A demo file system where both demo paths exist as regular files. -/
def fsDemo : Path → Option String := fun p =>
  if p = fragPath ∨ p = glslPath then some "void main()" else none

/-- A compiler that accepts every source. -/
def compileOk : String → Except String String := fun _ => Except.ok "spirv"

/-- A compiler that rejects every source with a fixed diagnostic. -/
def compileFail : String → Except String String := fun _ => Except.error "syntax error"

/-- The motion state produced by `PlayerMovement::new(false)` with a
connected gamepad. -/
def pm0 : PlayerMovement :=
  { position := Vec3.zeros, yaw := FRAC_PI_2, speed := 0,
    input_device := InputDevice.gamepadAxes }

/-- A demo app state after startup: mesh handle 0, material handle 0. -/
def app0 : MyApp :=
  { movement := pm0, fullscreen := { mesh := 0, material := 0, transform := Mat4.identity },
    time := 0, log := [] }

/-- A demo engine state with one live material and reliable releases. -/
def engine0 : Engine :=
  { nextMaterial := 1, materials := [0], removedMaterials := [], timeLog := [],
    removeFails := fun _ => false }

/-- The motion state after one demo tick with signal `(1, 2)`. -/
def pmA : PlayerMovement :=
  { pm0 with yaw := pm0.yaw + 1 * SENSITIVITY_X,
             speed := pm0.speed + 2 * SENSITIVITY_Y }

/-- The app state after one demo tick. -/
def appA : MyApp := { app0 with time := app0.time + 1 / 100, movement := pmA }

/-- The engine state after one demo tick. -/
def engineA : Engine :=
  { engine0 with timeLog := engine0.timeLog ++ [app0.time] }

/-- The frame packet emitted by the demo tick. -/
def packetA : FramePacket :=
  { objects := [appA.fullscreen],
    base_transform :=
      (Mat4.new_translation pmA.position).mul
        (Mat4.from_euler_angles cOne sZero 0 pmA.yaw 0) }

theorem from_euler_angles_zero_roll_yaw (cos sin : ℚ → ℚ) (hc : cos 0 = 1)
    (hs : sin 0 = 0) (θ : ℚ) :
    Mat4.from_euler_angles cos sin 0 θ 0 = Mat4.rot_y (cos θ) (sin θ) := by
  simp [Mat4.from_euler_angles, Mat4.rot_x, Mat4.rot_y, Mat4.rot_z,
    Mat4.identity, Mat4.mul, hc, hs]

/-- Claim C1: one `player_transform` tick adds `x * SENSITIVITY_X` to the yaw and
`y * SENSITIVITY_Y` to the speed exactly, and returns the translation-by-
position matrix left-multiplied with the rotation-by-new-yaw-about-the-
vertical-axis matrix. -/
theorem c1_tick_accumulation_and_transform (cos sin : ℚ → ℚ)
    (pm : PlayerMovement) (x y : ℚ) (hc : cos 0 = 1) (hs : sin 0 = 0) :
    PlayerMovement.player_transform cos sin pm (Except.ok (x, y)) =
      Except.ok
        ({ pm with yaw := pm.yaw + x * SENSITIVITY_X,
                   speed := pm.speed + y * SENSITIVITY_Y },
         (Mat4.new_translation pm.position).mul
           (Mat4.rot_y (cos (pm.yaw + x * SENSITIVITY_X))
             (sin (pm.yaw + x * SENSITIVITY_X)))) := by
  simp [PlayerMovement.player_transform,
    from_euler_angles_zero_roll_yaw cos sin hc hs]

/-- Claim C1 witness at a concrete input. -/
theorem c1_witness :
    cOne 0 = 1 ∧ sZero 0 = 0 ∧
    PlayerMovement.player_transform cOne sZero pm0 (Except.ok (1, 2)) =
      Except.ok
        ({ pm0 with yaw := pm0.yaw + 1 * SENSITIVITY_X,
                    speed := pm0.speed + 2 * SENSITIVITY_Y },
         (Mat4.new_translation pm0.position).mul
           (Mat4.rot_y (cOne (pm0.yaw + 1 * SENSITIVITY_X))
             (sZero (pm0.yaw + 1 * SENSITIVITY_X)))) :=
  ⟨rfl, rfl, c1_tick_accumulation_and_transform cOne sZero pm0 1 2 rfl rfl⟩

/-- Claim C2 counterexample: an internal read error of the balance board is
propagated by `get_axes` instead of being absorbed into `(0,0)`, and the
motion tick consuming it has a panic (exception) path. -/
theorem c2_counterexample :
    wiiBoard_get_axes (Except.error "read error") ≠ Except.ok (0, 0) ∧
    PlayerMovement.player_transform cOne sZero pm0 (Except.error "read error") =
      Except.error "Input error: read error" := by
  constructor
  · intro h
    exact Except.noConfusion h
  · rfl

/-- Claim C2 amended: the gamepad poll never returns an error and absence of axis
data contributes 0; the balance-board poll returns the neutral signal only
when there is no fresh sample (or a non-positive total, see C8), while an
internal read error is propagated; and the motion tick fails ("Input
error" panic) on a propagated poll error. -/
theorem c2_amended_poll_error_propagation (cos sin : ℚ → ℚ)
    (pm : PlayerMovement) (axisDataX axisDataY : Option ℚ) (e : String) :
    gamepad_get_axes axisDataX axisDataY =
      Except.ok (-(axisDataX.getD 0), axisDataY.getD 0) ∧
    wiiBoard_get_axes (Except.ok none) = Except.ok (0, 0) ∧
    wiiBoard_get_axes (Except.error e) = Except.error e ∧
    PlayerMovement.player_transform cos sin pm (Except.error e) =
      Except.error ("Input error: " ++ e) :=
  ⟨rfl, rfl, rfl, rfl⟩

/-- Claim C7: the gamepad poll returns the negated raw X axis and the raw Y axis,
and any absent axis reading contributes 0. -/
theorem c7_gamepad_negated_x (x y : ℚ) (hx1 : -1 ≤ x) (hx2 : x ≤ 1)
    (hy1 : -1 ≤ y) (hy2 : y ≤ 1) :
    gamepad_get_axes (some x) (some y) = Except.ok (-x, y) ∧
    gamepad_get_axes none (some y) = Except.ok (0, y) ∧
    gamepad_get_axes (some x) none = Except.ok (-x, 0) ∧
    gamepad_get_axes none none = Except.ok (0, 0) := by
  refine ⟨rfl, ?_, rfl, ?_⟩ <;> simp [gamepad_get_axes]

/-- Claim C7 witness at a concrete input. -/
theorem c7_witness :
    gamepad_get_axes (some (1 / 2)) (some (-1 / 4)) = Except.ok (-(1 / 2), -1 / 4) ∧
    gamepad_get_axes none (some (-1 / 4)) = Except.ok (0, -1 / 4) ∧
    gamepad_get_axes (some (1 / 2)) none = Except.ok (-(1 / 2), 0) ∧
    gamepad_get_axes none none = Except.ok (0, 0) :=
  c7_gamepad_negated_x (1 / 2) (-1 / 4) (by norm_num) (by norm_num) (by norm_num)
    (by norm_num)

/-- Claim C8: the balance-board poll returns the neutral signal when there is no
fresh sample or the four-corner total is non-positive; otherwise it returns
`2*fraction - 1` of the right-side and top-side pressure fractions, both in
`[-1, 1]` for nonnegative sensor readings. -/
theorem c8_balance_board_fractions (data : WiiBoardData)
    (h1 : 0 ≤ data.top_left) (h2 : 0 ≤ data.top_right)
    (h3 : 0 ≤ data.bottom_left) (h4 : 0 ≤ data.bottom_right) :
    wiiBoard_get_axes (Except.ok none) = Except.ok (0, 0) ∧
    (data.top_left + data.top_right + data.bottom_left + data.bottom_right ≤ 0 →
      wiiBoard_get_axes (Except.ok (some data)) = Except.ok (0, 0)) ∧
    (0 < data.top_left + data.top_right + data.bottom_left + data.bottom_right →
      wiiBoard_get_axes (Except.ok (some data)) =
        Except.ok
          (2 * ((data.top_right + data.bottom_right) /
              (data.top_left + data.top_right + data.bottom_left + data.bottom_right)) - 1,
           2 * ((data.top_left + data.top_right) /
              (data.top_left + data.top_right + data.bottom_left + data.bottom_right)) - 1) ∧
      -1 ≤ 2 * ((data.top_right + data.bottom_right) /
          (data.top_left + data.top_right + data.bottom_left + data.bottom_right)) - 1 ∧
      2 * ((data.top_right + data.bottom_right) /
          (data.top_left + data.top_right + data.bottom_left + data.bottom_right)) - 1 ≤ 1 ∧
      -1 ≤ 2 * ((data.top_left + data.top_right) /
          (data.top_left + data.top_right + data.bottom_left + data.bottom_right)) - 1 ∧
      2 * ((data.top_left + data.top_right) /
          (data.top_left + data.top_right + data.bottom_left + data.bottom_right)) - 1 ≤ 1) := by
  refine ⟨rfl, ?_, ?_⟩
  · intro hle
    simp [wiiBoard_get_axes, not_lt.mpr hle]
  · intro hpos
    have htot := hpos
    have hxf0 : 0 ≤ (data.top_right + data.bottom_right) /
        (data.top_left + data.top_right + data.bottom_left + data.bottom_right) :=
      div_nonneg (by linarith) (le_of_lt htot)
    have hxf1 : (data.top_right + data.bottom_right) /
        (data.top_left + data.top_right + data.bottom_left + data.bottom_right) ≤ 1 :=
      (div_le_one htot).mpr (by linarith)
    have hyf0 : 0 ≤ (data.top_left + data.top_right) /
        (data.top_left + data.top_right + data.bottom_left + data.bottom_right) :=
      div_nonneg (by linarith) (le_of_lt htot)
    have hyf1 : (data.top_left + data.top_right) /
        (data.top_left + data.top_right + data.bottom_left + data.bottom_right) ≤ 1 :=
      (div_le_one htot).mpr (by linarith)
    refine ⟨?_, by linarith, by linarith, by linarith, by linarith⟩
    simp [wiiBoard_get_axes, hpos, mul_comm]

/-- Claim C8 witness at a concrete input. -/
theorem c8_witness :
    wiiBoard_get_axes (Except.ok none) = Except.ok (0, 0) ∧
    ((1 : ℚ) + 1 + 1 + 1 ≤ 0 →
      wiiBoard_get_axes (Except.ok (some ⟨1, 1, 1, 1⟩)) = Except.ok (0, 0)) ∧
    ((0 : ℚ) < 1 + 1 + 1 + 1 →
      wiiBoard_get_axes (Except.ok (some ⟨1, 1, 1, 1⟩)) =
        Except.ok (2 * (((1 : ℚ) + 1) / (1 + 1 + 1 + 1)) - 1,
          2 * (((1 : ℚ) + 1) / (1 + 1 + 1 + 1)) - 1) ∧
      -1 ≤ 2 * (((1 : ℚ) + 1) / (1 + 1 + 1 + 1)) - 1 ∧
      2 * (((1 : ℚ) + 1) / (1 + 1 + 1 + 1)) - 1 ≤ 1 ∧
      -1 ≤ 2 * (((1 : ℚ) + 1) / (1 + 1 + 1 + 1)) - 1 ∧
      2 * (((1 : ℚ) + 1) / (1 + 1 + 1 + 1)) - 1 ≤ 1) :=
  c8_balance_board_fractions ⟨1, 1, 1, 1⟩ (by norm_num) (by norm_num) (by norm_num)
    (by norm_num)

/-- Yaw accumulation over a list of successful ticks. -/
theorem run_ticks_yaw (cos sin : ℚ → ℚ) :
    ∀ (sigs : List (ℚ × ℚ)) (pm : PlayerMovement),
      (run_ticks cos sin sigs pm).yaw =
        pm.yaw + (sigs.map Prod.fst).sum * SENSITIVITY_X
  | [], pm => by simp [run_ticks]
  | (x, y) :: rest, pm => by
    have ih := run_ticks_yaw cos sin rest
      { pm with yaw := pm.yaw + x * SENSITIVITY_X,
                speed := pm.speed + y * SENSITIVITY_Y }
    simp only [run_ticks, PlayerMovement.player_transform] at ih ⊢
    rw [ih]
    simp [List.sum_cons]
    ring

/-- Claim C10: the constructed motion state starts at position `(0,0,0)`, speed
`0` and yaw `FRAC_PI_2` (the `f32` value of π/2, nonzero), and every later
yaw value carries this initial offset. -/
theorem c10_initial_yaw_offset (balance : Bool) (gamepadInit : Except String Unit)
    (pm : PlayerMovement) (h : PlayerMovement.new balance gamepadInit = Except.ok pm) :
    pm.position = Vec3.zeros ∧ pm.speed = 0 ∧ pm.yaw = FRAC_PI_2 ∧ FRAC_PI_2 ≠ 0 ∧
    ∀ (cos sin : ℚ → ℚ) (sigs : List (ℚ × ℚ)),
      (run_ticks cos sin sigs pm).yaw =
        FRAC_PI_2 + (sigs.map Prod.fst).sum * SENSITIVITY_X := by
  have hpm : pm.position = Vec3.zeros ∧ pm.speed = 0 ∧ pm.yaw = FRAC_PI_2 := by
    cases balance with
    | true =>
      simp only [PlayerMovement.new] at h
      cases h
      exact ⟨rfl, rfl, rfl⟩
    | false =>
      cases gamepadInit with
      | error e => exact Except.noConfusion h
      | ok u =>
        simp only [PlayerMovement.new] at h
        cases h
        exact ⟨rfl, rfl, rfl⟩
  refine ⟨hpm.1, hpm.2.1, hpm.2.2, by norm_num [FRAC_PI_2], ?_⟩
  intro cos sin sigs
  rw [run_ticks_yaw cos sin sigs pm, hpm.2.2]

/-- Claim C10 witness at a concrete input. -/
theorem c10_witness :
    pm0.position = Vec3.zeros ∧ pm0.speed = 0 ∧ pm0.yaw = FRAC_PI_2 ∧
    FRAC_PI_2 ≠ 0 ∧
    ∀ (cos sin : ℚ → ℚ) (sigs : List (ℚ × ℚ)),
      (run_ticks cos sin sigs pm0).yaw =
        FRAC_PI_2 + (sigs.map Prod.fst).sum * SENSITIVITY_X :=
  c10_initial_yaw_offset false (Except.ok ()) pm0 rfl

/-- The reload block ignores a tick with no pending event. -/
theorem reload_step_none (fs : Path → Option String)
    (compile : String → Except String String) (app : MyApp) (engine : Engine) :
    reload_step fs compile none app engine = Except.ok (app, engine) := rfl

/-- The reload block ignores a `Remove` event. -/
theorem reload_step_remove (fs : Path → Option String)
    (compile : String → Except String String) (p : Path) (app : MyApp)
    (engine : Engine) :
    reload_step fs compile (some (DebouncedEvent.Remove p)) app engine =
      Except.ok (app, engine) := rfl

/-- The reload block ignores every other event variant. -/
theorem reload_step_other (fs : Path → Option String)
    (compile : String → Except String String) (app : MyApp) (engine : Engine) :
    reload_step fs compile (some DebouncedEvent.Other) app engine =
      Except.ok (app, engine) := rfl

/-- A `Create` or `Write` event failing the file-and-extension guard is
ignored. -/
theorem reload_step_not_qualifying (fs : Path → Option String)
    (compile : String → Except String String) (p : Path) (app : MyApp)
    (engine : Engine)
    (hng : ¬((fs p).isSome ∧ p.ext = some "frag")) :
    reload_step fs compile (some (DebouncedEvent.Create p)) app engine =
      Except.ok (app, engine) ∧
    reload_step fs compile (some (DebouncedEvent.Write p)) app engine =
      Except.ok (app, engine) := by
  constructor <;> simp [reload_step, hng]

/-- A qualifying event whose content fails to compile logs the diagnostic
and leaves app and engine otherwise unchanged. -/
theorem reload_step_compile_error (fs : Path → Option String)
    (compile : String → Except String String) (ev : Option DebouncedEvent)
    (p : Path) (text d : String) (app : MyApp) (engine : Engine)
    (hev : ev = some (DebouncedEvent.Create p) ∨ ev = some (DebouncedEvent.Write p))
    (htext : fs p = some text) (hext : p.ext = some "frag")
    (hcomp : compile text = Except.error d) :
    reload_step fs compile ev app engine =
      Except.ok ({ app with log := app.log ++ ["ERROR: " ++ d] }, engine) := by
  rcases hev with rfl | rfl <;>
    simp [reload_step, load_shader, htext, hext, hcomp]

/-- A qualifying event whose content compiles, with a succeeding release,
swaps in the fresh material handle, releases the old handle once, and logs
the load. -/
theorem reload_step_compile_ok (fs : Path → Option String)
    (compile : String → Except String String) (ev : Option DebouncedEvent)
    (p : Path) (text spirv : String) (app : MyApp) (engine : Engine)
    (hev : ev = some (DebouncedEvent.Create p) ∨ ev = some (DebouncedEvent.Write p))
    (htext : fs p = some text) (hext : p.ext = some "frag")
    (hcomp : compile text = Except.ok spirv)
    (hrf : engine.removeFails app.fullscreen.material = false) :
    reload_step fs compile ev app engine =
      Except.ok
        ({ app with
            fullscreen := { app.fullscreen with material := engine.nextMaterial },
            log := app.log ++ ["Loaded " ++ p.name] },
         { engine with
            nextMaterial := engine.nextMaterial + 1,
            materials := (engine.materials ++ [engine.nextMaterial]).erase
              app.fullscreen.material,
            removedMaterials := engine.removedMaterials ++ [app.fullscreen.material] }) := by
  rcases hev with rfl | rfl <;>
    simp [reload_step, load_shader, Engine.add_material, Engine.remove_material,
      htext, hext, hcomp, hrf]

/-- A qualifying event whose content compiles but whose release of the old
material fails propagates that failure as an error. -/
theorem reload_step_remove_fails (fs : Path → Option String)
    (compile : String → Except String String) (ev : Option DebouncedEvent)
    (p : Path) (text spirv : String) (app : MyApp) (engine : Engine)
    (hev : ev = some (DebouncedEvent.Create p) ∨ ev = some (DebouncedEvent.Write p))
    (htext : fs p = some text) (hext : p.ext = some "frag")
    (hcomp : compile text = Except.ok spirv)
    (hrf : engine.removeFails app.fullscreen.material = true) :
    reload_step fs compile ev app engine = Except.error "remove_material failed" := by
  rcases hev with rfl | rfl <;>
    simp [reload_step, load_shader, Engine.add_material, Engine.remove_material,
      htext, hext, hcomp, hrf]

/-- Every successful outcome of the reload block is one of: untouched
state, compile-diagnostic appended to the log, or a material swap with a
single release of the old handle. -/
theorem reload_step_ok_shape (fs : Path → Option String)
    (compile : String → Except String String) (ev : Option DebouncedEvent)
    (app : MyApp) (engine : Engine) (app1 : MyApp) (engine1 : Engine)
    (h : reload_step fs compile ev app engine = Except.ok (app1, engine1)) :
    (app1 = app ∧ engine1 = engine) ∨
    (∃ d, app1 = { app with log := app.log ++ ["ERROR: " ++ d] } ∧ engine1 = engine) ∨
    (∃ p : Path, app1 = { app with
        fullscreen := { app.fullscreen with material := engine.nextMaterial },
        log := app.log ++ ["Loaded " ++ p.name] } ∧
      engine1 = { engine with
        nextMaterial := engine.nextMaterial + 1,
        materials := (engine.materials ++ [engine.nextMaterial]).erase
          app.fullscreen.material,
        removedMaterials := engine.removedMaterials ++ [app.fullscreen.material] }) := by
  have pair_of : ∀ {a b : MyApp × Engine},
      (Except.ok a : Except String (MyApp × Engine)) = Except.ok b → a = b := by
    intro a b hab
    injection hab
  cases ev with
  | none =>
    rw [reload_step_none] at h
    exact Or.inl (by
      have := pair_of h
      exact ⟨congrArg Prod.fst this.symm, congrArg Prod.snd this.symm⟩)
  | some e =>
    cases e with
    | Remove p =>
      rw [reload_step_remove] at h
      exact Or.inl (by
        have := pair_of h
        exact ⟨congrArg Prod.fst this.symm, congrArg Prod.snd this.symm⟩)
    | Other =>
      rw [reload_step_other] at h
      exact Or.inl (by
        have := pair_of h
        exact ⟨congrArg Prod.fst this.symm, congrArg Prod.snd this.symm⟩)
    | Create p =>
      by_cases hq : (fs p).isSome ∧ p.ext = some "frag"
      · obtain ⟨hfile, hext⟩ := hq
        obtain ⟨text, htext⟩ := Option.isSome_iff_exists.mp hfile
        cases hcomp : compile text with
        | error d =>
          rw [reload_step_compile_error fs compile _ p text d app engine
            (Or.inl rfl) htext hext hcomp] at h
          have := pair_of h
          exact Or.inr (Or.inl ⟨d, congrArg Prod.fst this.symm,
            congrArg Prod.snd this.symm⟩)
        | ok spirv =>
          cases hrf : engine.removeFails app.fullscreen.material with
          | false =>
            rw [reload_step_compile_ok fs compile _ p text spirv app engine
              (Or.inl rfl) htext hext hcomp hrf] at h
            have := pair_of h
            exact Or.inr (Or.inr ⟨p, congrArg Prod.fst this.symm,
              congrArg Prod.snd this.symm⟩)
          | true =>
            rw [reload_step_remove_fails fs compile _ p text spirv app engine
              (Or.inl rfl) htext hext hcomp hrf] at h
            exact Except.noConfusion h
      · rw [(reload_step_not_qualifying fs compile p app engine hq).1] at h
        have := pair_of h
        exact Or.inl ⟨congrArg Prod.fst this.symm, congrArg Prod.snd this.symm⟩
    | Write p =>
      by_cases hq : (fs p).isSome ∧ p.ext = some "frag"
      · obtain ⟨hfile, hext⟩ := hq
        obtain ⟨text, htext⟩ := Option.isSome_iff_exists.mp hfile
        cases hcomp : compile text with
        | error d =>
          rw [reload_step_compile_error fs compile _ p text d app engine
            (Or.inr rfl) htext hext hcomp] at h
          have := pair_of h
          exact Or.inr (Or.inl ⟨d, congrArg Prod.fst this.symm,
            congrArg Prod.snd this.symm⟩)
        | ok spirv =>
          cases hrf : engine.removeFails app.fullscreen.material with
          | false =>
            rw [reload_step_compile_ok fs compile _ p text spirv app engine
              (Or.inr rfl) htext hext hcomp hrf] at h
            have := pair_of h
            exact Or.inr (Or.inr ⟨p, congrArg Prod.fst this.symm,
              congrArg Prod.snd this.symm⟩)
          | true =>
            rw [reload_step_remove_fails fs compile _ p text spirv app engine
              (Or.inr rfl) htext hext hcomp hrf] at h
            exact Except.noConfusion h
      · rw [(reload_step_not_qualifying fs compile p app engine hq).2] at h
        have := pair_of h
        exact Or.inl ⟨congrArg Prod.fst this.symm, congrArg Prod.snd this.symm⟩

/-- Decomposition of one successful frame tick: the reload block runs
first, then the pre-advance time is forwarded, the time advanced, the
transform obtained from the motion tick, and exactly the fullscreen object
emitted. -/
theorem next_frame_ok_step (fs : Path → Option String)
    (compile : String → Except String String) (cos sin : ℚ → ℚ)
    (ev : Option DebouncedEvent) (pollResult : Except String (ℚ × ℚ))
    (app : MyApp) (engine : Engine) (app' : MyApp) (engine' : Engine)
    (packet : FramePacket)
    (h : next_frame fs compile cos sin ev pollResult app engine =
      Except.ok (app', engine', packet)) :
    ∃ app1 engine1,
      reload_step fs compile ev app engine = Except.ok (app1, engine1) ∧
      engine' = { engine1 with timeLog := engine1.timeLog ++ [app1.time] } ∧
      app'.time = app1.time + 1 / 100 ∧
      PlayerMovement.player_transform cos sin app1.movement pollResult =
        Except.ok (app'.movement, packet.base_transform) ∧
      packet.objects = [app'.fullscreen] ∧
      app'.fullscreen = app1.fullscreen ∧ app'.log = app1.log := by
  unfold next_frame at h
  cases hrel : reload_step fs compile ev app engine with
  | error e =>
    rw [hrel] at h
    exact Except.noConfusion h
  | ok pr =>
    obtain ⟨app1, engine1⟩ := pr
    rw [hrel] at h
    simp only [Engine.update_time_value] at h
    cases hpt : PlayerMovement.player_transform cos sin app1.movement pollResult with
    | error e =>
      rw [hpt] at h
      exact Except.noConfusion h
    | ok mt =>
      obtain ⟨movement', transform⟩ := mt
      rw [hpt] at h
      simp only [Except.ok.injEq, Prod.mk.injEq] at h
      obtain ⟨h1, h2, h3⟩ := h
      subst h1
      subst h2
      subst h3
      exact ⟨app1, engine1, rfl, rfl, rfl, hpt, rfl, rfl, rfl⟩

/-- The reload block never changes the motion state, the mesh handle, the
animation time, the time log or the release oracle. -/
theorem reload_step_preserves (fs : Path → Option String)
    (compile : String → Except String String) (ev : Option DebouncedEvent)
    (app : MyApp) (engine : Engine) (app1 : MyApp) (engine1 : Engine)
    (h : reload_step fs compile ev app engine = Except.ok (app1, engine1)) :
    app1.movement = app.movement ∧ app1.fullscreen.mesh = app.fullscreen.mesh ∧
    app1.time = app.time ∧ engine1.timeLog = engine.timeLog ∧
    engine1.removeFails = engine.removeFails := by
  rcases reload_step_ok_shape fs compile ev app engine app1 engine1 h with
    ⟨rfl, rfl⟩ | ⟨d, rfl, rfl⟩ | ⟨p, rfl, rfl⟩ <;>
    exact ⟨rfl, rfl, rfl, rfl, rfl⟩

/-- The motion tick never changes the position. -/
theorem player_transform_ok_shape (cos sin : ℚ → ℚ) (pm : PlayerMovement)
    (pollResult : Except String (ℚ × ℚ)) (pm' : PlayerMovement) (M : Mat4)
    (h : PlayerMovement.player_transform cos sin pm pollResult =
      Except.ok (pm', M)) :
    ∃ x y, pollResult = Except.ok (x, y) ∧
      pm' = { pm with yaw := pm.yaw + x * SENSITIVITY_X,
                      speed := pm.speed + y * SENSITIVITY_Y } := by
  cases pollResult with
  | error e => exact Except.noConfusion h
  | ok xy =>
    obtain ⟨x, y⟩ := xy
    refine ⟨x, y, rfl, ?_⟩
    simp only [PlayerMovement.player_transform, Except.ok.injEq,
      Prod.mk.injEq] at h
    exact h.1.symm

/-- Claim C3 counterexample: with the shader configured as `shader.glsl`, a
`Write` event for that very (existing) file — whose extension matches the
configured shader's extension — triggers no reload: the active material
stays `0`, no material is allocated and nothing is logged, because the
code compares the extension against the literal `"frag"`. -/
theorem c3_counterexample :
    glslPath.ext = some "glsl" ∧ (fsDemo glslPath).isSome = true ∧
    (next_frame fsDemo compileOk cOne sZero
        (some (DebouncedEvent.Write glslPath)) (Except.ok (0, 0)) app0
        engine0).map
      (fun r => (r.1.fullscreen.material, r.2.1.nextMaterial, r.1.log)) =
      Except.ok (0, 1, []) :=
  ⟨rfl, rfl, rfl⟩

/-- Claim C3 amended: a reload is attempted exactly for dequeued `Create` or
`Write` events whose path exists as a regular file and has the literal
extension `"frag"` (hard-coded, not the configured shader path's
extension); every other dequeued event leaves the app and engine states
unchanged, for every compiler (no compile attempt). -/
theorem c3_amended_hardcoded_frag_filter (fs : Path → Option String)
    (compile : String → Except String String) (ev : Option DebouncedEvent)
    (p : Path) (text d spirv : String) (app : MyApp) (engine : Engine) :
    reload_step fs compile none app engine = Except.ok (app, engine) ∧
    reload_step fs compile (some DebouncedEvent.Other) app engine =
      Except.ok (app, engine) ∧
    reload_step fs compile (some (DebouncedEvent.Remove p)) app engine =
      Except.ok (app, engine) ∧
    (¬((fs p).isSome ∧ p.ext = some "frag") →
      reload_step fs compile (some (DebouncedEvent.Create p)) app engine =
        Except.ok (app, engine) ∧
      reload_step fs compile (some (DebouncedEvent.Write p)) app engine =
        Except.ok (app, engine)) ∧
    ((ev = some (DebouncedEvent.Create p) ∨ ev = some (DebouncedEvent.Write p)) →
      fs p = some text → p.ext = some "frag" →
      (compile text = Except.error d →
        reload_step fs compile ev app engine =
          Except.ok ({ app with log := app.log ++ ["ERROR: " ++ d] }, engine)) ∧
      (compile text = Except.ok spirv →
        engine.removeFails app.fullscreen.material = false →
        reload_step fs compile ev app engine =
          Except.ok
            ({ app with
                fullscreen := { app.fullscreen with material := engine.nextMaterial },
                log := app.log ++ ["Loaded " ++ p.name] },
             { engine with
                nextMaterial := engine.nextMaterial + 1,
                materials := (engine.materials ++ [engine.nextMaterial]).erase
                  app.fullscreen.material,
                removedMaterials :=
                  engine.removedMaterials ++ [app.fullscreen.material] }))) := by
  refine ⟨reload_step_none fs compile app engine,
    reload_step_other fs compile app engine,
    reload_step_remove fs compile p app engine,
    fun hng => reload_step_not_qualifying fs compile p app engine hng,
    fun hev htext hext => ⟨?_, ?_⟩⟩
  · intro hcomp
    exact reload_step_compile_error fs compile ev p text d app engine hev htext
      hext hcomp
  · intro hcomp hrf
    exact reload_step_compile_ok fs compile ev p text spirv app engine hev htext
      hext hcomp hrf

/-- Claim C3 amended witness at concrete inputs: an ignored `Remove` event, an
ignored matching-extension-but-not-frag `Write` event, and a processed
`.frag` `Write` event whose compile diagnostic is logged. -/
theorem c3_witness :
    reload_step fsDemo compileFail (some (DebouncedEvent.Remove fragPath)) app0
      engine0 = Except.ok (app0, engine0) ∧
    reload_step fsDemo compileFail (some (DebouncedEvent.Write glslPath)) app0
      engine0 = Except.ok (app0, engine0) ∧
    reload_step fsDemo compileFail (some (DebouncedEvent.Write fragPath)) app0
      engine0 =
      Except.ok ({ app0 with log := app0.log ++ ["ERROR: syntax error"] }, engine0) := by
  have h := c3_amended_hardcoded_frag_filter fsDemo compileFail
    (some (DebouncedEvent.Write fragPath)) fragPath "void main()" "syntax error"
    "spirv" app0 engine0
  have hg := c3_amended_hardcoded_frag_filter fsDemo compileFail
    (some (DebouncedEvent.Write glslPath)) glslPath "void main()" "syntax error"
    "spirv" app0 engine0
  refine ⟨h.2.2.1, ?_, ?_⟩
  · exact (hg.2.2.2.1 (by simp [fsDemo, glslPath, fragPath])).2
  · exact (h.2.2.2.2 (Or.inr rfl) (by simp [fsDemo, fragPath, glslPath]) rfl).1 rfl

/-- Claim C4: a qualifying watch event whose file content fails to compile
leaves the active material handle unchanged, records the compiler
diagnostic in the log, and the tick still returns successfully. -/
theorem c4_compile_failure_logged_and_continue (fs : Path → Option String)
    (compile : String → Except String String) (cos sin : ℚ → ℚ)
    (ev : Option DebouncedEvent) (p : Path) (text d : String) (x y : ℚ)
    (app : MyApp) (engine : Engine)
    (hev : ev = some (DebouncedEvent.Create p) ∨ ev = some (DebouncedEvent.Write p))
    (htext : fs p = some text) (hext : p.ext = some "frag")
    (hcomp : compile text = Except.error d) :
    ∃ app' engine' packet,
      next_frame fs compile cos sin ev (Except.ok (x, y)) app engine =
        Except.ok (app', engine', packet) ∧
      app'.fullscreen.material = app.fullscreen.material ∧
      app'.log = app.log ++ ["ERROR: " ++ d] := by
  unfold next_frame
  rw [reload_step_compile_error fs compile ev p text d app engine hev htext hext
    hcomp]
  simp only [Engine.update_time_value, PlayerMovement.player_transform]
  exact ⟨_, _, _, rfl, rfl, rfl⟩

/-- Claim C4 witness at a concrete input. -/
theorem c4_witness :
    ∃ app' engine' packet,
      next_frame fsDemo compileFail cOne sZero
        (some (DebouncedEvent.Write fragPath)) (Except.ok (0, 0)) app0 engine0 =
        Except.ok (app', engine', packet) ∧
      app'.fullscreen.material = app0.fullscreen.material ∧
      app'.log = app0.log ++ ["ERROR: " ++ "syntax error"] :=
  c4_compile_failure_logged_and_continue fsDemo compileFail cOne sZero
    (some (DebouncedEvent.Write fragPath)) fragPath "void main()" "syntax error"
    0 0 app0 engine0 (Or.inr rfl) (by simp [fsDemo, fragPath, glslPath]) rfl rfl

/-- Claim C5: a qualifying watch event whose file content compiles swaps the
active material to the freshly allocated handle and passes the superseded
handle to `remove_material` exactly once; if that release fails, the error
propagates out of the tick. -/
theorem c5_swap_release_or_propagate (fs : Path → Option String)
    (compile : String → Except String String) (cos sin : ℚ → ℚ)
    (ev : Option DebouncedEvent) (p : Path) (text spirv : String) (x y : ℚ)
    (app : MyApp) (engine : Engine)
    (hev : ev = some (DebouncedEvent.Create p) ∨ ev = some (DebouncedEvent.Write p))
    (htext : fs p = some text) (hext : p.ext = some "frag")
    (hcomp : compile text = Except.ok spirv)
    (hfresh : app.fullscreen.material ≠ engine.nextMaterial) :
    (engine.removeFails app.fullscreen.material = false →
      ∃ app' engine' packet,
        next_frame fs compile cos sin ev (Except.ok (x, y)) app engine =
          Except.ok (app', engine', packet) ∧
        app'.fullscreen.material = engine.nextMaterial ∧
        app'.fullscreen.material ≠ app.fullscreen.material ∧
        engine'.removedMaterials =
          engine.removedMaterials ++ [app.fullscreen.material]) ∧
    (engine.removeFails app.fullscreen.material = true →
      next_frame fs compile cos sin ev (Except.ok (x, y)) app engine =
        Except.error "remove_material failed") := by
  constructor
  · intro hrf
    unfold next_frame
    rw [reload_step_compile_ok fs compile ev p text spirv app engine hev htext
      hext hcomp hrf]
    simp only [Engine.update_time_value, PlayerMovement.player_transform]
    exact ⟨_, _, _, rfl, rfl, fun hc => hfresh hc.symm, rfl⟩
  · intro hrf
    unfold next_frame
    rw [reload_step_remove_fails fs compile ev p text spirv app engine hev htext
      hext hcomp hrf]

/-- Claim C5 witness at concrete inputs, covering both the successful release
and the failing release. -/
theorem c5_witness :
    (engine0.removeFails app0.fullscreen.material = false →
      ∃ app' engine' packet,
        next_frame fsDemo compileOk cOne sZero
          (some (DebouncedEvent.Write fragPath)) (Except.ok (0, 0)) app0 engine0 =
          Except.ok (app', engine', packet) ∧
        app'.fullscreen.material = engine0.nextMaterial ∧
        app'.fullscreen.material ≠ app0.fullscreen.material ∧
        engine'.removedMaterials =
          engine0.removedMaterials ++ [app0.fullscreen.material]) ∧
    (engine0.removeFails app0.fullscreen.material = true →
      next_frame fsDemo compileOk cOne sZero
        (some (DebouncedEvent.Write fragPath)) (Except.ok (0, 0)) app0 engine0 =
        Except.error "remove_material failed") :=
  c5_swap_release_or_propagate fsDemo compileOk cOne sZero
    (some (DebouncedEvent.Write fragPath)) fragPath "void main()" "spirv" 0 0
    app0 engine0 (Or.inr rfl) (by simp [fsDemo, fragPath, glslPath]) rfl rfl
    (by decide)

/-- Single-tick order and time effects: the value forwarded to the engine
is the pre-advance time, the time then advances by `1/100`, exactly the
fullscreen object is emitted, and the transform comes from the motion tick
on the pre-tick motion state. -/
theorem next_frame_tick_order (fs : Path → Option String)
    (compile : String → Except String String) (cos sin : ℚ → ℚ)
    (ev : Option DebouncedEvent) (pollResult : Except String (ℚ × ℚ))
    (app : MyApp) (engine : Engine) (app' : MyApp) (engine' : Engine)
    (packet : FramePacket)
    (h : next_frame fs compile cos sin ev pollResult app engine =
      Except.ok (app', engine', packet)) :
    engine'.timeLog = engine.timeLog ++ [app.time] ∧
    app'.time = app.time + 1 / 100 ∧
    packet.objects = [app'.fullscreen] ∧
    PlayerMovement.player_transform cos sin app.movement pollResult =
      Except.ok (app'.movement, packet.base_transform) := by
  obtain ⟨app1, engine1, hrel, heng, htime, hpt, hobj, hfsn, hlog⟩ :=
    next_frame_ok_step fs compile cos sin ev pollResult app engine app' engine'
      packet h
  obtain ⟨hm, hmesh, ht, htl, hrf⟩ :=
    reload_step_preserves fs compile ev app engine app1 engine1 hrel
  refine ⟨?_, ?_, hobj, ?_⟩
  · rw [heng]
    simp only
    rw [htl, ht]
  · rw [htime, ht]
  · rw [← hm]
    exact hpt

/-- Single-tick position and mesh preservation. -/
theorem next_frame_position_mesh (fs : Path → Option String)
    (compile : String → Except String String) (cos sin : ℚ → ℚ)
    (ev : Option DebouncedEvent) (pollResult : Except String (ℚ × ℚ))
    (app : MyApp) (engine : Engine) (app' : MyApp) (engine' : Engine)
    (packet : FramePacket)
    (h : next_frame fs compile cos sin ev pollResult app engine =
      Except.ok (app', engine', packet)) :
    app'.movement.position = app.movement.position ∧
    app'.fullscreen.mesh = app.fullscreen.mesh := by
  obtain ⟨app1, engine1, hrel, heng, htime, hpt, hobj, hfsn, hlog⟩ :=
    next_frame_ok_step fs compile cos sin ev pollResult app engine app' engine'
      packet h
  obtain ⟨hm, hmesh, ht, htl, hrf⟩ :=
    reload_step_preserves fs compile ev app engine app1 engine1 hrel
  obtain ⟨x, y, hpr, hshape⟩ :=
    player_transform_ok_shape cos sin app1.movement pollResult app'.movement
      packet.base_transform hpt
  constructor
  · rw [hshape]
    simp only
    rw [hm]
  · rw [hfsn, hmesh]

/-- Position and mesh preservation over any successful frame sequence. -/
theorem run_frames_position_mesh (fs : Path → Option String)
    (compile : String → Except String String) (cos sin : ℚ → ℚ) :
    ∀ (inputs : List (Option DebouncedEvent × Except String (ℚ × ℚ)))
      (app : MyApp) (engine : Engine) (app' : MyApp) (engine' : Engine),
      run_frames fs compile cos sin inputs app engine = Except.ok (app', engine') →
      app'.movement.position = app.movement.position ∧
      app'.fullscreen.mesh = app.fullscreen.mesh
  | [], app, engine, app', engine' => by
    intro h
    simp only [run_frames, Except.ok.injEq, Prod.mk.injEq] at h
    obtain ⟨h1, h2⟩ := h
    subst h1
    exact ⟨rfl, rfl⟩
  | (ev, pollResult) :: rest, app, engine, app', engine' => by
    intro h
    simp only [run_frames] at h
    cases hnf : next_frame fs compile cos sin ev pollResult app engine with
    | error e =>
      rw [hnf] at h
      exact Except.noConfusion h
    | ok r =>
      obtain ⟨app1, engine1, packet⟩ := r
      rw [hnf] at h
      have ih := run_frames_position_mesh fs compile cos sin rest app1 engine1
        app' engine' h
      have hstep := next_frame_position_mesh fs compile cos sin ev pollResult
        app engine app1 engine1 packet hnf
      exact ⟨ih.1.trans hstep.1, ih.2.trans hstep.2⟩

/-- The motion tick fold never changes the position. -/
theorem run_ticks_position (cos sin : ℚ → ℚ) :
    ∀ (sigs : List (ℚ × ℚ)) (pm : PlayerMovement),
      (run_ticks cos sin sigs pm).position = pm.position
  | [], pm => rfl
  | (x, y) :: rest, pm => by
    simp only [run_ticks, PlayerMovement.player_transform]
    exact run_ticks_position cos sin rest _

/-- Claim C6: over every sequence of ticks the position is never translated (the
accumulated speed is never applied) and the fullscreen object's mesh
handle is never replaced. -/
theorem c6_position_static_mesh_immutable (fs : Path → Option String)
    (compile : String → Except String String) (cos sin : ℚ → ℚ)
    (inputs : List (Option DebouncedEvent × Except String (ℚ × ℚ)))
    (sigs : List (ℚ × ℚ)) (pm : PlayerMovement) (app : MyApp) (engine : Engine)
    (app' : MyApp) (engine' : Engine)
    (h : run_frames fs compile cos sin inputs app engine = Except.ok (app', engine')) :
    (run_ticks cos sin sigs pm).position = pm.position ∧
    app'.movement.position = app.movement.position ∧
    app'.fullscreen.mesh = app.fullscreen.mesh := by
  refine ⟨run_ticks_position cos sin sigs pm, ?_, ?_⟩
  · exact (run_frames_position_mesh fs compile cos sin inputs app engine app'
      engine' h).1
  · exact (run_frames_position_mesh fs compile cos sin inputs app engine app'
      engine' h).2

/-- Shifting the per-tick time law by one tick. -/
theorem range_map_time_shift (t : ℚ) (n : ℕ) :
    (List.range (n + 1)).map (fun k : ℕ => t + (k : ℚ) * (1 / 100)) =
      t :: (List.range n).map (fun k : ℕ => (t + 1 / 100) + (k : ℚ) * (1 / 100)) := by
  rw [List.range_succ_eq_map, List.map_cons, List.map_map]
  have hfun : ((fun k : ℕ => t + (k : ℚ) * (1 / 100)) ∘ Nat.succ) =
      (fun k : ℕ => (t + 1 / 100) + (k : ℚ) * (1 / 100)) := by
    funext k
    simp only [Function.comp_apply, Nat.cast_succ]
    ring
  rw [hfun]
  simp

/-- The forwarded time values over any successful frame sequence: tick
`n` (1-based) forwards the start time plus `n - 1` increments, and the
stored time afterwards carries one increment per tick. -/
theorem run_frames_time_law (fs : Path → Option String)
    (compile : String → Except String String) (cos sin : ℚ → ℚ) :
    ∀ (inputs : List (Option DebouncedEvent × Except String (ℚ × ℚ)))
      (app : MyApp) (engine : Engine) (app' : MyApp) (engine' : Engine),
      run_frames fs compile cos sin inputs app engine = Except.ok (app', engine') →
      engine'.timeLog = engine.timeLog ++
        (List.range inputs.length).map (fun k : ℕ => app.time + (k : ℚ) * (1 / 100)) ∧
      app'.time = app.time + (inputs.length : ℚ) * (1 / 100)
  | [], app, engine, app', engine' => by
    intro h
    simp only [run_frames, Except.ok.injEq, Prod.mk.injEq] at h
    obtain ⟨h1, h2⟩ := h
    subst h1
    subst h2
    simp
  | (ev, pollResult) :: rest, app, engine, app', engine' => by
    intro h
    simp only [run_frames] at h
    cases hnf : next_frame fs compile cos sin ev pollResult app engine with
    | error e =>
      rw [hnf] at h
      exact Except.noConfusion h
    | ok r =>
      obtain ⟨app1, engine1, packet⟩ := r
      rw [hnf] at h
      have ih := run_frames_time_law fs compile cos sin rest app1 engine1 app'
        engine' h
      have hstep := next_frame_tick_order fs compile cos sin ev pollResult app
        engine app1 engine1 packet hnf
      constructor
      · rw [ih.1, hstep.1, hstep.2.1, List.length_cons, range_map_time_shift]
        simp
      · rw [ih.2, hstep.2.1, List.length_cons]
        push_cast
        ring

/-- Claim C9 counterexample: on the very first tick from time 0 the engine
receives the value 0, not one application of the fixed increment, because
the code forwards the time before advancing it. -/
theorem c9_counterexample :
    (run_frames fsDemo compileOk cOne sZero [(none, Except.ok (0, 0))] app0
        engine0).map (fun r => r.2.timeLog) = Except.ok [0] ∧
    (0 : ℚ) ≠ 0 + 1 * (1 / 100) := by
  constructor
  · rfl
  · norm_num

/-- Claim C9 amended: each tick processes at most one dequeued event, forwards
the pre-advance time to the engine, advances the time by the fixed
increment, obtains the transform from the motion tick on the current
state, and emits exactly the fullscreen object; hence the value forwarded
on tick `n` carries `n - 1` increments. -/
theorem c9_amended_order_and_time (fs : Path → Option String)
    (compile : String → Except String String) (cos sin : ℚ → ℚ) :
    (∀ (ev : Option DebouncedEvent) (pollResult : Except String (ℚ × ℚ))
      (app : MyApp) (engine : Engine) (app' : MyApp) (engine' : Engine)
      (packet : FramePacket),
      next_frame fs compile cos sin ev pollResult app engine =
        Except.ok (app', engine', packet) →
      engine'.timeLog = engine.timeLog ++ [app.time] ∧
      app'.time = app.time + 1 / 100 ∧
      packet.objects = [app'.fullscreen] ∧
      PlayerMovement.player_transform cos sin app.movement pollResult =
        Except.ok (app'.movement, packet.base_transform)) ∧
    (∀ (inputs : List (Option DebouncedEvent × Except String (ℚ × ℚ)))
      (app : MyApp) (engine : Engine) (app' : MyApp) (engine' : Engine),
      run_frames fs compile cos sin inputs app engine = Except.ok (app', engine') →
      engine'.timeLog = engine.timeLog ++
        (List.range inputs.length).map (fun k : ℕ => app.time + (k : ℚ) * (1 / 100)) ∧
      app'.time = app.time + (inputs.length : ℚ) * (1 / 100)) :=
  ⟨fun ev pollResult app engine app' engine' packet h =>
    next_frame_tick_order fs compile cos sin ev pollResult app engine app'
      engine' packet h,
   fun inputs app engine app' engine' h =>
    run_frames_time_law fs compile cos sin inputs app engine app' engine' h⟩

/-- Claim C9 witness at a concrete input. -/
theorem c9_witness :
    (engineA.timeLog = engine0.timeLog ++ [app0.time] ∧
     appA.time = app0.time + 1 / 100 ∧
     packetA.objects = [appA.fullscreen] ∧
     PlayerMovement.player_transform cOne sZero app0.movement (Except.ok (1, 2)) =
       Except.ok (appA.movement, packetA.base_transform)) ∧
    (engineA.timeLog = engine0.timeLog ++
       (List.range 1).map (fun k : ℕ => app0.time + (k : ℚ) * (1 / 100)) ∧
     appA.time = app0.time + ((1 : ℕ) : ℚ) * (1 / 100)) :=
  ⟨(c9_amended_order_and_time fsDemo compileOk cOne sZero).1 none
     (Except.ok (1, 2)) app0 engine0 appA engineA packetA rfl,
   (c9_amended_order_and_time fsDemo compileOk cOne sZero).2
     [(none, Except.ok (1, 2))] app0 engine0 appA engineA rfl⟩

/-- Claim C6 witness at a concrete input. -/
theorem c6_witness :
    (run_ticks cOne sZero [(1, 2)] pm0).position = pm0.position ∧
    appA.movement.position = app0.movement.position ∧
    appA.fullscreen.mesh = app0.fullscreen.mesh :=
  c6_position_static_mesh_immutable fsDemo compileOk cOne sZero
    [(none, Except.ok (1, 2))] [(1, 2)] pm0 app0 engine0 appA engineA rfl

end SdfSurfer
